import Mathlib

/-!
Verification of the property-QA multi-service repository.

The development shallowly embeds the two components with real logic:

* the vector-database service (`src/services/vector_database/main.py`):
  cosine similarity over stored embedding records, text search, and
  similar-listing search, including the degraded-mode fallbacks; and
* the orchestrator (`src/services/rag_service/main.py`): the text-query and
  voice-query pipelines over recorded outcomes of the outbound HTTP calls.

Python floats are modelled as real numbers; every outbound HTTP call of the
orchestrator is modelled by its recorded outcome (`Call`): either a response
with a status code and a parsed JSON body, or a raised transport-level
exception carrying a message.  Databases are lists in insertion order.
-/

namespace PropertyQA

/-- Dot product of two vectors, as computed by `np.dot` on the stored
vectors: pairwise products summed (pairing truncates at the shorter list). -/
def dot (a b : List ℝ) : ℝ :=
  (List.zipWith (fun x y => x * y) a b).sum

/-- Cosine similarity from `cosine_similarity` in
`src/services/vector_database/main.py`:
`np.dot(a, b) / (np.linalg.norm(a) * np.linalg.norm(b))`, where
`np.linalg.norm v` is the square root of the sum of squares of `v`.
There is no guard for zero-norm vectors. -/
noncomputable def cosine_similarity (a b : List ℝ) : ℝ :=
  dot a b / (Real.sqrt (dot a a) * Real.sqrt (dot b b))

/-- A row of the `property_embeddings` table. -/
structure PropertyEmbedding where
  id : ℕ
  property_id : ℤ
  text : String
  embedding : List ℝ

/-- The `SearchResult` response model of the vector-database service. -/
structure SearchResult where
  property_id : ℤ
  text : String
  similarity : ℝ

/-- The `EmbedRequest` body of the vector-database service. -/
structure EmbedRequest where
  property_id : ℤ
  text : String

/-- The `EmbedResponse` body of the vector-database service. -/
structure EmbedResponse where
  property_id : ℤ
  embedding_id : ℕ
  vector_size : ℕ

/-- Python's `results.sort(key=lambda x: x.similarity, reverse=True)`:
a stable sort into non-increasing similarity order. -/
noncomputable def sortBySimilarityDesc (l : List SearchResult) : List SearchResult :=
  l.mergeSort (fun a b => decide (b.similarity ≤ a.similarity))

/-- The hard-coded fallback list returned by `/search` when the embedding
model failed to load. -/
noncomputable def mockSearchResults : List SearchResult :=
  [ { property_id := 1, text := "3-bedroom villa with swimming pool", similarity := 0.95 },
    { property_id := 2, text := "Luxury apartment in Downtown Dubai", similarity := 0.87 },
    { property_id := 3, text := "Modern villa in Dubai Hills Estate", similarity := 0.82 } ]

/-- The hard-coded fallback list returned by `/similarity` when the embedding
model failed to load. -/
noncomputable def mockSimilarResults : List SearchResult :=
  [ { property_id := 2, text := "Similar luxury property", similarity := 0.89 },
    { property_id := 3, text := "Comparable villa", similarity := 0.84 } ]

/-- The `/search` endpoint (`search_properties`): when the model is
unavailable, the fallback list truncated to `limit`; otherwise encode the
query, score every stored embedding by cosine similarity, sort descending,
truncate to `limit`. -/
noncomputable def search_properties (model : Option (String → List ℝ))
    (db : List PropertyEmbedding) (query : String) (limit : ℕ) : List SearchResult :=
  match model with
  | none => mockSearchResults.take limit
  | some encode =>
    (sortBySimilarityDesc (db.map fun emb =>
      ({ property_id := emb.property_id, text := emb.text,
         similarity := cosine_similarity (encode query) emb.embedding } : SearchResult))).take limit

/-- The `/similarity` endpoint (`find_similar_properties`): look up the
reference embedding for the requested property with a `.first()` query
(modelled as the first record in insertion order); 404 when absent; when the
model is unavailable return the fallback list truncated to `limit`; otherwise
score every record of a *different* property against the reference vector,
sort descending, truncate to `limit`. -/
noncomputable def find_similar_properties (model : Option (String → List ℝ))
    (db : List PropertyEmbedding) (property_id : ℤ) (limit : ℕ) :
    Except (ℕ × String) (List SearchResult) :=
  match db.find? (fun e => e.property_id == property_id) with
  | none => .error (404, "Property embedding not found")
  | some ref_embedding =>
    match model with
    | none => .ok (mockSimilarResults.take limit)
    | some _ =>
      .ok ((sortBySimilarityDesc ((db.filter
        (fun e => e.property_id != property_id)).map fun emb =>
          ({ property_id := emb.property_id, text := emb.text,
             similarity := cosine_similarity ref_embedding.embedding emb.embedding } :
            SearchResult))).take limit)

/-- Identifier assigned by the database to a freshly inserted embedding row,
modelling the autoincrement primary key: one more than the largest id. -/
def nextId (db : List PropertyEmbedding) : ℕ :=
  (db.map PropertyEmbedding.id).foldr max 0 + 1

/-- The `/embed` endpoint (`create_embedding`): 503 and no state change when
the model is unavailable; otherwise encode the text, append the new row, and
return the request's property id, the generated row id and the vector length.
The function returns the endpoint's result together with the database state
after the call. -/
noncomputable def create_embedding (model : Option (String → List ℝ))
    (db : List PropertyEmbedding) (request : EmbedRequest) :
    Except (ℕ × String) EmbedResponse × List PropertyEmbedding :=
  match model with
  | none => (.error (503, "Embedding model not available"), db)
  | some encode =>
    (.ok { property_id := request.property_id, embedding_id := nextId db,
           vector_size := (encode request.text).length },
     db ++ [({ id := nextId db, property_id := request.property_id,
               text := request.text, embedding := encode request.text } :
              PropertyEmbedding)])

/-- Comparator used by the descending sort is transitive. -/
theorem simLe_trans (a b c : SearchResult)
    (hab : decide (b.similarity ≤ a.similarity) = true)
    (hbc : decide (c.similarity ≤ b.similarity) = true) :
    decide (c.similarity ≤ a.similarity) = true := by
  simp only [decide_eq_true_iff] at *
  exact le_trans hbc hab

/-- Comparator used by the descending sort is total. -/
theorem simLe_total (a b : SearchResult) :
    (decide (b.similarity ≤ a.similarity) || decide (a.similarity ≤ b.similarity)) = true := by
  rcases le_total b.similarity a.similarity with h | h <;> simp [h]

/-- Sorting by descending similarity yields a pairwise non-increasing list. -/
theorem sortBySimilarityDesc_pairwise (l : List SearchResult) :
    (sortBySimilarityDesc l).Pairwise (fun a b => b.similarity ≤ a.similarity) := by
  have h : (l.mergeSort fun a b : SearchResult =>
      decide (b.similarity ≤ a.similarity)).Pairwise fun a b =>
        decide (b.similarity ≤ a.similarity) = true :=
    List.sorted_mergeSort simLe_trans simLe_total l
  exact h.imp (fun hd => of_decide_eq_true hd)

/-- Sorting preserves the multiset of results. -/
theorem sortBySimilarityDesc_perm (l : List SearchResult) :
    (sortBySimilarityDesc l).Perm l :=
  List.mergeSort_perm l _

/-- C2: for every model state, database, query and limit, `SearchByText`
returns at most `limit` entries, and the returned sequence is sorted by
non-increasing similarity score. -/
theorem c2_search_bounded_and_sorted (model : Option (String → List ℝ))
    (db : List PropertyEmbedding) (query : String) (limit : ℕ) :
    (search_properties model db query limit).length ≤ limit ∧
    (search_properties model db query limit).Pairwise
      (fun a b => b.similarity ≤ a.similarity) := by
  constructor
  · cases model <;>
      simp [search_properties, List.length_take]
  · cases model with
    | none =>
      apply List.Pairwise.sublist (List.take_sublist _ _)
      have h1 : (0.87 : ℝ) ≤ 0.95 := by norm_num
      have h2 : (0.82 : ℝ) ≤ 0.95 := by norm_num
      have h3 : (0.82 : ℝ) ≤ 0.87 := by norm_num
      simp [mockSearchResults, List.pairwise_cons, h1, h2, h3]
    | some encode =>
      exact List.Pairwise.sublist (List.take_sublist _ _) (sortBySimilarityDesc_pairwise _)

/-- The dot product as a finite sum over the common index range. -/
theorem dot_eq_sum (a : List ℝ) : ∀ b : List ℝ,
    dot a b = ∑ i ∈ Finset.range (min a.length b.length), a.getD i 0 * b.getD i 0 := by
  induction a with
  | nil => intro b; simp [dot]
  | cons x xs ih =>
    intro b
    cases b with
    | nil => simp [dot]
    | cons y ys =>
      simp only [dot, List.zipWith_cons_cons, List.sum_cons, List.length_cons,
        Nat.succ_min_succ, Finset.sum_range_succ', List.getD_cons_succ,
        List.getD_cons_zero]
      have := ih ys
      simp only [dot] at this
      rw [this]
      ring

/-- A vector's dot product with itself is nonnegative. -/
theorem dot_self_nonneg (v : List ℝ) : 0 ≤ dot v v := by
  rw [dot_eq_sum]
  exact Finset.sum_nonneg fun i _ => mul_self_nonneg _

/-- Cauchy-Schwarz for the list dot product: the dot product is at most the
product of the Euclidean norms. -/
theorem dot_le_sqrt_mul_sqrt (a b : List ℝ) :
    dot a b ≤ Real.sqrt (dot a a) * Real.sqrt (dot b b) := by
  have hcs := Real.sum_mul_le_sqrt_mul_sqrt (Finset.range (min a.length b.length))
    (fun i => a.getD i 0) (fun i => b.getD i 0)
  rw [dot_eq_sum]
  refine hcs.trans (mul_le_mul ?_ ?_ (Real.sqrt_nonneg _) (Real.sqrt_nonneg _))
  · apply Real.sqrt_le_sqrt
    rw [dot_eq_sum, min_self]
    simp only [pow_two]
    exact Finset.sum_le_sum_of_subset_of_nonneg
      (Finset.range_subset.2 (min_le_left _ _)) (fun i _ _ => mul_self_nonneg _)
  · apply Real.sqrt_le_sqrt
    rw [dot_eq_sum, min_self]
    simp only [pow_two]
    exact Finset.sum_le_sum_of_subset_of_nonneg
      (Finset.range_subset.2 (min_le_right _ _)) (fun i _ _ => mul_self_nonneg _)

/-- Cosine similarity of a vector with itself is 1 when its norm is nonzero. -/
theorem cosine_similarity_self (v : List ℝ) (h : dot v v ≠ 0) :
    cosine_similarity v v = 1 := by
  rw [cosine_similarity, Real.mul_self_sqrt (dot_self_nonneg v)]
  exact div_self h

/-- Cosine similarity never exceeds 1 in the embedding (a zero denominator
makes the quotient 0 there). -/
theorem cosine_similarity_le_one (v w : List ℝ) :
    cosine_similarity v w ≤ 1 := by
  rw [cosine_similarity]
  rcases eq_or_lt_of_le (mul_nonneg (Real.sqrt_nonneg (dot v v))
    (Real.sqrt_nonneg (dot w w))) with hD | hD
  · rw [← hD, div_zero]
    norm_num
  · rw [div_le_one hD]
    exact dot_le_sqrt_mul_sqrt v w

/-- Every stored record contributes an entry to the text-search output when
the limit covers the whole database. -/
theorem search_mem_of_mem_db (enc : String → List ℝ) (db : List PropertyEmbedding)
    (q : String) (limit : ℕ) (e : PropertyEmbedding) (he : e ∈ db)
    (hlim : db.length ≤ limit) :
    ({ property_id := e.property_id, text := e.text,
       similarity := cosine_similarity (enc q) e.embedding } : SearchResult) ∈
      search_properties (some enc) db q limit := by
  show _ ∈ (sortBySimilarityDesc _).take limit
  rw [List.take_of_length_le (by simp [sortBySimilarityDesc, hlim])]
  simp only [sortBySimilarityDesc, List.mem_mergeSort, List.mem_map]
  exact ⟨e, he, rfl⟩

/-- Every entry of the text-search output is the cosine score of some stored
record against the encoded query. -/
theorem search_mem_inv (enc : String → List ℝ) (db : List PropertyEmbedding)
    (q : String) (limit : ℕ) (s : SearchResult)
    (hs : s ∈ search_properties (some enc) db q limit) :
    ∃ e ∈ db, s = { property_id := e.property_id, text := e.text,
                    similarity := cosine_similarity (enc q) e.embedding } := by
  have h := List.mem_of_mem_take (show s ∈ (sortBySimilarityDesc _).take limit from hs)
  simp only [sortBySimilarityDesc, List.mem_mergeSort, List.mem_map] at h
  obtain ⟨e, he, rfl⟩ := h
  exact ⟨e, he, rfl⟩

/-- C9: after embedding a listing with source text `T`, searching with query
`T` (with a limit covering the whole index) returns an entry for that listing
whose similarity is at least every similarity in the output: the listing is
top-ranked or tied top-ranked.  Hypotheses: the encoded text has nonzero
norm, and every previously stored vector has nonzero norm (the precondition
under which cosine similarity is well defined in the source). -/
theorem c9_embed_search_round_trip
    (enc : String → List ℝ) (db : List PropertyEmbedding) (pid : ℤ) (T : String)
    (limit : ℕ) (db' : List PropertyEmbedding)
    (hdb' : db' = (create_embedding (some enc) db { property_id := pid, text := T }).2)
    (hq : dot (enc T) (enc T) ≠ 0)
    (hdb : ∀ e ∈ db, dot e.embedding e.embedding ≠ 0)
    (hlim : db.length + 1 ≤ limit) :
    ∃ r ∈ search_properties (some enc) db' T limit,
      r.property_id = pid ∧
      ∀ s ∈ search_properties (some enc) db' T limit, s.similarity ≤ r.similarity := by
  have hrow : db' = db ++ [({ id := nextId db, property_id := pid, text := T,
                              embedding := enc T } : PropertyEmbedding)] := by
    rw [hdb']
    rfl
  have hlen : db'.length ≤ limit := by
    rw [hrow]
    simpa using hlim
  have hmem : ({ id := nextId db, property_id := pid, text := T,
                 embedding := enc T } : PropertyEmbedding) ∈ db' := by
    rw [hrow]
    exact List.mem_append_right _ (List.mem_singleton.2 rfl)
  refine ⟨_, search_mem_of_mem_db enc db' T limit _ hmem hlen, rfl, ?_⟩
  intro s hs
  obtain ⟨e, _, rfl⟩ := search_mem_inv enc db' T limit s hs
  simp only
  rw [cosine_similarity_self (enc T) hq]
  exact cosine_similarity_le_one (enc T) e.embedding

/-- Witness for C9 at a concrete deterministic model and an empty index. -/
theorem c9_embed_search_round_trip_witness :
    ∃ r ∈ search_properties (some fun _ => [1])
        [({ id := 1, property_id := 1, text := "villa", embedding := [1] } :
          PropertyEmbedding)] "villa" 1,
      r.property_id = 1 ∧
      ∀ s ∈ search_properties (some fun _ => [1])
          [({ id := 1, property_id := 1, text := "villa", embedding := [1] } :
            PropertyEmbedding)] "villa" 1,
        s.similarity ≤ r.similarity := by
  refine c9_embed_search_round_trip (fun _ => [1]) [] 1 "villa" 1 _ ?_ ?_ ?_ ?_
  · rfl
  · norm_num [dot]
  · intro e he
    cases he
  · norm_num

/-- C10: the cosine computation divides by the product of the two norms with
no guard: whenever either compared vector has zero norm the divisor is zero,
and the text search still scores every stored vector (zero-norm or not)
against the encoded query with that unguarded division; likewise the
similar-listing search scores every other stored vector against the
reference vector. -/
theorem c10_unguarded_zero_norm_division (a b : List ℝ)
    (h : dot a a = 0 ∨ dot b b = 0) :
    Real.sqrt (dot a a) * Real.sqrt (dot b b) = 0 ∧
    cosine_similarity a b = dot a b / 0 ∧
    (∀ (enc : String → List ℝ) (db : List PropertyEmbedding) (q : String) (limit : ℕ),
      enc q = a → db.length ≤ limit →
      ∀ e ∈ db, e.embedding = b →
        ({ property_id := e.property_id, text := e.text,
           similarity := cosine_similarity a b } : SearchResult) ∈
          search_properties (some enc) db q limit) := by
  have hzero : Real.sqrt (dot a a) * Real.sqrt (dot b b) = 0 := by
    rcases h with h | h
    · rw [h, Real.sqrt_zero, zero_mul]
    · rw [h, Real.sqrt_zero, mul_zero]
  refine ⟨hzero, ?_, ?_⟩
  · rw [cosine_similarity, hzero]
  · intro enc db q limit henc hlim e he hemb
    have := search_mem_of_mem_db enc db q limit e he hlim
    rwa [henc, hemb] at this

/-- Witness for C10 at a zero vector against a unit vector inside a concrete
one-record index. -/
theorem c10_unguarded_zero_norm_division_witness :
    Real.sqrt (dot ([0] : List ℝ) [0]) * Real.sqrt (dot ([1] : List ℝ) [1]) = 0 ∧
    cosine_similarity [0] [1] = dot [0] [1] / 0 ∧
    (∀ (enc : String → List ℝ) (db : List PropertyEmbedding) (q : String) (limit : ℕ),
      enc q = [0] → db.length ≤ limit →
      ∀ e ∈ db, e.embedding = [1] →
        ({ property_id := e.property_id, text := e.text,
           similarity := cosine_similarity [0] [1] } : SearchResult) ∈
          search_properties (some enc) db q limit) := by
  have h0 : dot ([0] : List ℝ) [0] = 0 := by norm_num [dot]
  have h := c10_unguarded_zero_norm_division [0] [1] (Or.inl h0)
  simpa using h

/-- Concrete index for the C4 counterexample: listing 2 has an embedding. -/
noncomputable def dbC4 : List PropertyEmbedding :=
  [{ id := 1, property_id := 2, text := "t", embedding := [1] }]

/-- C4 counterexample: with the embedding model unavailable, the degraded-mode
fallback of `SearchBySimilarListing` for listing 2 (which has an embedding
record) contains an entry whose listing identifier is 2 itself. -/
theorem c4_counterexample :
    ∃ l, find_similar_properties none dbC4 2 5 = .ok l ∧
      ∃ r ∈ l, r.property_id = 2 := by
  refine ⟨mockSimilarResults.take 5, ?_, ?_⟩
  · simp [find_similar_properties, dbC4]
  · refine ⟨({ property_id := 2, text := "Similar luxury property",
               similarity := 0.89 } : SearchResult), ?_, rfl⟩
    simp [mockSimilarResults]

/-- C4 amended: when the embedding model is available, the output of
`SearchBySimilarListing` never contains an entry for the requested listing
itself; in degraded mode the fixed fallback list is returned and can contain
the requested listing's identifier. -/
theorem c4_no_self_when_model_available (enc : String → List ℝ)
    (db : List PropertyEmbedding) (pid : ℤ) (limit : ℕ) (l : List SearchResult)
    (h : find_similar_properties (some enc) db pid limit = .ok l) :
    ∀ r ∈ l, r.property_id ≠ pid := by
  intro r hr
  unfold find_similar_properties at h
  cases hf : db.find? (fun e => e.property_id == pid) with
  | none => rw [hf] at h; cases h
  | some ref =>
    rw [hf] at h
    simp only [Except.ok.injEq] at h
    subst h
    have hmem := List.mem_of_mem_take hr
    simp only [sortBySimilarityDesc, List.mem_mergeSort, List.mem_map] at hmem
    obtain ⟨e, he, rfl⟩ := hmem
    have := List.of_mem_filter he
    simpa [bne_iff_ne] using this

/-- Concrete two-record index for the C4 witness. -/
noncomputable def dbC4b : List PropertyEmbedding :=
  [{ id := 1, property_id := 1, text := "a", embedding := [1] },
   { id := 2, property_id := 2, text := "b", embedding := [1] }]

/-- Witness for the amended C4: the one entry returned for listing 1 on a
concrete two-record index is not listing 1 itself. -/
theorem c4_no_self_when_model_available_witness :
    ({ property_id := 2, text := "b",
       similarity := cosine_similarity [1] [1] } : SearchResult).property_id ≠ 1 :=
  c4_no_self_when_model_available (fun _ => [1]) dbC4b 1 5
    [{ property_id := 2, text := "b", similarity := cosine_similarity [1] [1] }]
    (by simp [find_similar_properties, dbC4b, sortBySimilarityDesc])
    _ (by simp)

/-- Largest element bound for the fold used by `nextId`. -/
theorem le_foldr_max (x : ℕ) (l : List ℕ) (hx : x ∈ l) : x ≤ l.foldr max 0 := by
  induction l with
  | nil => cases hx
  | cons a l ih =>
    rcases List.mem_cons.1 hx with rfl | h
    · exact le_max_left _ _
    · exact (ih h).trans (le_max_right _ _)

/-- C5: with the model unavailable, `Embed` fails with the 503 "model
unavailable" condition and leaves the stored state unchanged; with the model
available it appends exactly one new record holding the request's listing id,
the source text and the encoded vector, under a fresh identifier, and returns
that identifier together with the vector length. -/
theorem c5_embed_unavailable_and_success (db : List PropertyEmbedding)
    (request : EmbedRequest) :
    create_embedding none db request =
      (.error (503, "Embedding model not available"), db) ∧
    ∀ enc : String → List ℝ, ∃ row : PropertyEmbedding,
      (create_embedding (some enc) db request).2 = db ++ [row] ∧
      row.property_id = request.property_id ∧ row.text = request.text ∧
      row.embedding = enc request.text ∧ (∀ e ∈ db, e.id ≠ row.id) ∧
      (create_embedding (some enc) db request).1 =
        .ok { property_id := request.property_id, embedding_id := row.id,
              vector_size := (enc request.text).length } := by
  refine ⟨rfl, fun enc => ⟨_, rfl, rfl, rfl, rfl, ?_, rfl⟩⟩
  intro e he hid
  have hle : e.id ≤ (db.map PropertyEmbedding.id).foldr max 0 :=
    le_foldr_max _ _ (List.mem_map.2 ⟨e, he, rfl⟩)
  simp only [nextId] at hid
  omega

/-- Witness for C5 at a concrete request against an empty store. -/
theorem c5_embed_unavailable_and_success_witness :
    create_embedding none [] { property_id := 1, text := "t" } =
      (.error (503, "Embedding model not available"), []) :=
  (c5_embed_unavailable_and_success [] { property_id := 1, text := "t" }).1

/-- Concrete index for the C7 counterexample: listing 7 has two embedding
records, the older one `[1, 0]` and the more recent one `[0, 1]`; listing 8
has the vector `[1, 0]`. -/
noncomputable def dbC7 : List PropertyEmbedding :=
  [{ id := 1, property_id := 7, text := "a", embedding := [1, 0] },
   { id := 2, property_id := 7, text := "b", embedding := [0, 1] },
   { id := 3, property_id := 8, text := "c", embedding := [1, 0] }]

/-- C7 counterexample: the reference lookup takes the FIRST stored embedding
for the listing, not the most recent one: with two embeddings for listing 7,
the returned score for listing 8 is the cosine against the older vector
`[1, 0]` (namely 1), while the most recent vector `[0, 1]` would have scored
0 against listing 8. -/
theorem c7_counterexample :
    find_similar_properties (some fun _ => []) dbC7 7 5 =
      .ok [{ property_id := 8, text := "c", similarity := 1 }] ∧
    cosine_similarity [0, 1] [1, 0] = 0 := by
  constructor
  · have hdot : dot [(1 : ℝ), 0] [1, 0] = 1 := by norm_num [dot]
    have hcos : cosine_similarity [(1 : ℝ), 0] [1, 0] = 1 := by
      rw [cosine_similarity, hdot]
      norm_num
    simp [find_similar_properties, dbC7, sortBySimilarityDesc, hcos]
  · have hdot : dot [(0 : ℝ), 1] [1, 0] = 0 := by norm_num [dot]
    rw [cosine_similarity, hdot, zero_div]

/-- C7 amended: `SearchBySimilarListing` looks up the first stored embedding
record for the listing (insertion order), and — regardless of whether the
embedding model is available — fails with the explicit 404 "not found"
condition exactly when no embedding record exists for that listing, and
returns a (possibly empty) success list whenever one exists. -/
theorem c7_lookup_not_found (model : Option (String → List ℝ))
    (db : List PropertyEmbedding) (pid : ℤ) (limit : ℕ) :
    (find_similar_properties model db pid limit =
        .error (404, "Property embedding not found") ↔
      ∀ e ∈ db, e.property_id ≠ pid) ∧
    ((∃ e ∈ db, e.property_id = pid) →
      ∃ l, find_similar_properties model db pid limit = .ok l) := by
  unfold find_similar_properties
  cases hf : db.find? (fun e => e.property_id == pid) with
  | none =>
    rw [List.find?_eq_none] at hf
    constructor
    · constructor
      · intro _ e he
        simpa using hf e he
      · intro _
        rfl
    · rintro ⟨e, he, hpe⟩
      have h := hf e he
      simp [hpe] at h
  | some ref =>
    have href : ref.property_id = pid := by
      simpa using List.find?_some hf
    have hmem : ref ∈ db := List.mem_of_find?_eq_some hf
    constructor
    · constructor
      · intro h
        cases model <;> cases h
      · intro h
        exact absurd href (h ref hmem)
    · intro _
      cases model with
      | none => exact ⟨_, rfl⟩
      | some enc => exact ⟨_, rfl⟩

/-- Witness for the amended C7: the 404 condition at an empty store, and a
successful lookup on a concrete store, both with the model unavailable. -/
theorem c7_lookup_not_found_witness :
    find_similar_properties none [] 1 5 =
      .error (404, "Property embedding not found") ∧
    ∃ l, find_similar_properties none dbC4 2 5 = .ok l := by
  constructor
  · exact (c7_lookup_not_found none [] 1 5).1.2 (by intro e he; cases he)
  · exact (c7_lookup_not_found none dbC4 2 5).2
      ⟨{ id := 1, property_id := 2, text := "t", embedding := [1] },
        by simp [dbC4], rfl⟩

/-- A listing record as served by the Listing Store
(`PropertyModel` in `src/services/web_scraper/main.py`). -/
structure PropertyModel where
  id : ℤ
  title : String
  price : ℚ
  currency : String
  bedrooms : ℤ
  bathrooms : ℤ
  area : ℚ
  property_type : String
  location : String
  description : String
  amenities : List String
  url : Option String

/-- A joined listing: the listing's fields augmented with the similarity
score of the search entry that matched it
(`{**prop, "similarity_score": result["similarity"]}`). -/
structure MatchedProperty where
  property : PropertyModel
  similarity_score : ℝ

/-- A compact context entry sent to the Response Generator in step 4 of the
text pipeline. -/
structure ContextEntry where
  property_id : ℤ
  title : String
  price : ℚ
  details : String

/-- The details f-string
`f"{bedrooms}BR, {bathrooms}BA, {area}sqft in {location}"`. -/
def detailsString (p : PropertyModel) : String :=
  toString p.bedrooms ++ "BR, " ++ toString p.bathrooms ++ "BA, " ++
    toString p.area ++ "sqft in " ++ p.location

/-- The Response Generator's reply as consumed by the orchestrator: only the
"response" key is read, and it may be absent from the parsed JSON object. -/
structure LLMResult where
  response : Option String

/-- Recorded outcome of one outbound HTTP call: either a response carrying a
status code and a parsed body, or a raised transport-level exception
(connection error, timeout) carrying its message. -/
inductive Call (α : Type) where
  | response (status : ℕ) (body : α)
  | raise (msg : String)

/-- Recorded outcomes of the outbound calls one text-query request can make:
the listing fetch, the text search (sent with the request's limit), the
Response Generator call (keyed by the context list it is sent), and one
similarity call per listing identifier (sent with limit 3). -/
structure Env where
  propertiesCall : Call (List PropertyModel)
  searchCall : Call (List SearchResult)
  llmCall : List ContextEntry → Call LLMResult
  similarityCall : ℤ → Call (List SearchResult)
  elapsed : ℚ

/-- Evaluation of `resp.json() if resp.status_code == 200 else fallback`,
with a raised exception propagating. -/
def jsonOr {α : Type} (c : Call α) (fallback : α) : Except String α :=
  match c with
  | .raise m => .error m
  | .response s b => .ok (if s = 200 then b else fallback)

/-- The inner `for prop in properties: if prop["id"] == ...: ...; break`
loop: the first listing with the given identifier, if any. -/
def firstMatch (pid : ℤ) : List PropertyModel → Option PropertyModel
  | [] => none
  | p :: ps => if p.id = pid then some p else firstMatch pid ps

/-- The join loop of step 3: for each search result in rank order, append the
first listing with the matching identifier augmented with the entry's
similarity score, or silently drop the entry when no listing matches. -/
def joinMatches (props : List PropertyModel) : List SearchResult → List MatchedProperty
  | [] => []
  | r :: rest =>
    match firstMatch r.property_id props with
    | some p => { property := p, similarity_score := r.similarity } :: joinMatches props rest
    | none => joinMatches props rest

/-- The step-5 loop: for each given joined match, issue the similarity call
for its listing identifier; a 200 response is joined against the fetched
collection and accumulated in order, a non-200 response contributes nothing,
and a raised exception aborts the pipeline. -/
def gatherSimilar (env : Env) (props : List PropertyModel) :
    List MatchedProperty → Except String (List MatchedProperty)
  | [] => .ok []
  | mp :: rest =>
    match env.similarityCall mp.property.id with
    | .raise m => .error m
    | .response s body =>
      (gatherSimilar env props rest).map
        (fun acc => (if s = 200 then joinMatches props body else []) ++ acc)

/-- The `QueryRequest` body of the orchestrator, with its declared defaults. -/
structure QueryRequest where
  query : String
  include_similar : Bool := true
  max_results : ℕ := 5

/-- The `QueryResponse` model of the orchestrator. -/
structure QueryResponse where
  query : String
  answer : String
  matching_properties : List MatchedProperty
  similar_properties : List MatchedProperty
  processing_time : ℚ

/-- Field names of the `QueryResponse` pydantic model, in declaration
order. -/
def QueryResponse.fieldNames : List String :=
  ["query", "answer", "matching_properties", "similar_properties", "processing_time"]

/-- The `VoiceQueryResponse` model of the orchestrator. -/
structure VoiceQueryResponse where
  transcription : String
  query : String
  answer : String
  matching_properties : List MatchedProperty
  confidence : ℝ
  processing_time : ℚ

/-- Field names of the `VoiceQueryResponse` pydantic model, in declaration
order. -/
def VoiceQueryResponse.fieldNames : List String :=
  ["transcription", "query", "answer", "matching_properties", "confidence",
   "processing_time"]

/-- The `/query` pipeline (`process_text_query`): fetch listings (empty list
on a non-success status), search (empty list on a non-success status), join,
build the context, call the Response Generator (apology body on a non-success
status), read its "response" field (default text when the key is absent),
optionally expand the top 2 joined matches into similar listings capped at 5,
and return the assembled response; any raised exception reaches the outer
handler and surfaces as a 500 pipeline error wrapping the message. -/
def process_text_query (env : Env) (req : QueryRequest) :
    Except (ℕ × String) QueryResponse :=
  Except.mapError (fun m => (500, "Error processing query: " ++ m)) (do
    let properties ← jsonOr env.propertiesCall []
    let search_results ← jsonOr env.searchCall []
    let matching_properties := joinMatches properties search_results
    let context := matching_properties.map fun mp =>
      ({ property_id := mp.property.id, title := mp.property.title,
         price := mp.property.price,
         details := detailsString mp.property } : ContextEntry)
    let llm_result ← jsonOr (env.llmCall context)
      { response := some "Sorry, I couldn't process your query at the moment." }
    let similar_properties ←
      if req.include_similar && !matching_properties.isEmpty then
        gatherSimilar env properties (matching_properties.take 2)
      else
        Except.ok []
    Except.ok ({ query := req.query,
                 answer := llm_result.response.getD "No response available",
                 matching_properties := matching_properties,
                 similar_properties := similar_properties.take 5,
                 processing_time := env.elapsed } : QueryResponse))

/-- The parsed body of the speech-service upload reply as consumed by the
orchestrator: only `file_id` is read. -/
structure UploadBody where
  file_id : String

/-- The parsed body of the transcription reply as consumed by the
orchestrator: only `transcription` and `confidence` are read. -/
structure TranscriptionBody where
  transcription : String
  confidence : ℝ

/-- Recorded outcomes of the outbound calls one voice-query request can make:
the audio upload, the transcription call (keyed by the uploaded file id), and
the text pipeline's own calls. -/
structure VoiceEnv where
  uploadCall : Call UploadBody
  transcribeCall : String → Call TranscriptionBody
  textEnv : Env
  elapsed : ℚ

/-- The `/voice-query` pipeline (`process_voice_query`): upload the audio
(an `HTTPException` is raised on a non-success status), transcribe the
uploaded file (likewise), run the transcript through the text pipeline, and
merge transcript, confidence and the text result into the voice response.
Every exception raised inside the handler — including the two
`HTTPException`s and a failing text pipeline — is caught by the outer
handler and surfaces as a 500 error wrapping the message. -/
def process_voice_query (venv : VoiceEnv) : Except (ℕ × String) VoiceQueryResponse :=
  Except.mapError (fun m => (500, "Error processing voice query: " ++ m)) (do
    let upload_result ←
      match venv.uploadCall with
      | .raise m => Except.error m
      | .response s b =>
        if s = 200 then Except.ok b
        else Except.error "400: Failed to upload audio file"
    let transcription_result ←
      match venv.transcribeCall upload_result.file_id with
      | .raise m => Except.error m
      | .response s b =>
        if s = 200 then Except.ok b
        else Except.error "400: Failed to transcribe audio"
    let text_query_result ←
      match process_text_query venv.textEnv
          { query := transcription_result.transcription } with
      | .error e => Except.error (toString e.1 ++ ": " ++ e.2)
      | .ok r => Except.ok r
    Except.ok ({ transcription := transcription_result.transcription,
                 query := transcription_result.transcription,
                 answer := text_query_result.answer,
                 matching_properties := text_query_result.matching_properties,
                 confidence := transcription_result.confidence,
                 processing_time := venv.elapsed } : VoiceQueryResponse))

/-- Python's substring test `pat in s`. -/
def containsSub (s pat : String) : Bool :=
  decide (pat.data <:+: s.data)

/-- Canned reply of the Response Generator for 3-bedroom villa queries. -/
def llmVillaResponse : String :=
  "Based on your search for 3-bedroom villas, I found several excellent options:\n\n1. **Luxurious 3BR Villa in Dubai Hills** - AED 1,850,000\n   - 3 bedrooms, 4 bathrooms\n   - 2,500 sq ft with private garden and swimming pool\n   - Golf course views in prestigious Dubai Hills Estate\n\n2. **Modern Villa in Emirates Hills** - AED 2,200,000\n   - 3 bedrooms, 3 bathrooms  \n   - Premium location with luxury amenities\n   - Private swimming pool and garden\n\nThese properties match your criteria and offer excellent value in Dubai's premium residential areas."

/-- Canned reply of the Response Generator for 2-bedroom apartment queries. -/
def llmApartmentResponse : String :=
  "Here are the best 2-bedroom apartments I found:\n\n1. **Modern 2BR Apartment in Downtown Dubai** - AED 1,200,000\n   - Stunning Burj Khalifa views\n   - Premium finishes and world-class amenities\n   - Access to gym, swimming pool, and concierge services\n\n2. **Luxury Apartment in Dubai Marina** - AED 950,000\n   - Marina and sea views\n   - Modern design with high-end appliances\n   - Resort-style amenities\n\nBoth properties offer excellent investment potential and lifestyle amenities."

/-- Canned reply of the Response Generator for swimming-pool queries. -/
def llmPoolResponse : String :=
  "I found several properties with swimming pools:\n\n1. **Villa in Dubai Hills** - Features private swimming pool and garden\n2. **Downtown Apartment** - Access to building's luxury pool and spa\n3. **Marina Residence** - Resort-style pool deck with city views\n\nAll these properties include swimming pool access as part of their premium amenities package."

/-- Leading text of the Response Generator's generic reply, up to the echoed
query. -/
def llmGenericPre : String :=
  "I understand you're looking for properties in Dubai. Based on your query \""

/-- Trailing text of the Response Generator's generic reply, after the echoed
query. -/
def llmGenericPost : String :=
  "\", I can help you find suitable options. \n\nOur current inventory includes:\n- Luxury villas in Dubai Hills Estate and Emirates Hills\n- Modern apartments in Downtown Dubai and Dubai Marina  \n- Properties ranging from AED 800K to AED 2.5M\n- Various amenities including swimming pools, gyms, and concierge services\n\nWould you like me to provide more specific recommendations based on your budget, preferred location, or desired amenities?"

/-- The "response" field computed by the Response Generator's
`process_query` (`src/services/llm_integration/main.py`): substring
pattern-matching on the lower-cased query, selecting one of three canned
texts or the generic reply echoing the query.  (The reply's other fields —
model tag, randomized token count, confidence — are never read by the
orchestrator and are not modelled.) -/
def llm_process_query_response (query : String) : String :=
  let query_lower := query.toLower
  if containsSub query_lower "3-bedroom" && containsSub query_lower "villa" then
    llmVillaResponse
  else if containsSub query_lower "2-bedroom" && containsSub query_lower "apartment" then
    llmApartmentResponse
  else if containsSub query_lower "swimming pool" then
    llmPoolResponse
  else
    llmGenericPre ++ query ++ llmGenericPost

/-- Every reply of the repository's Response Generator is non-empty. -/
theorem llm_response_ne_empty (query : String) :
    llm_process_query_response query ≠ "" := by
  simp only [llm_process_query_response]
  split_ifs
  · decide
  · decide
  · decide
  · intro h
    have hlen := congrArg String.length h
    rw [String.length_append, String.length_append] at hlen
    have hpre : 0 < llmGenericPre.length := by decide
    have hemp : String.length "" = 0 := rfl
    rw [hemp] at hlen
    omega

/-- Binding a success value just applies the continuation. -/
theorem ok_bind {ε α β : Type} (a : α) (f : α → Except ε β) :
    (Except.ok a : Except ε α) >>= f = f a := rfl

/-- Binding an error short-circuits. -/
theorem error_bind {ε α β : Type} (e : ε) (f : α → Except ε β) :
    (Except.error e : Except ε α) >>= f = Except.error e := rfl

/-- An error-mapped computation succeeds exactly when the underlying one
does. -/
theorem mapError_ok_iff {ε ε' α : Type} (f : ε → ε') (x : Except ε α) (r : α) :
    Except.mapError f x = .ok r ↔ x = .ok r := by
  cases x <;> simp [Except.mapError]

/-- Success of a bind decomposes into success of both stages. -/
theorem bind_ok_iff {ε α β : Type} (x : Except ε α) (f : α → Except ε β) (b : β) :
    (x >>= f) = .ok b ↔ ∃ a, x = .ok a ∧ f a = .ok b := by
  cases x with
  | error e =>
    rw [error_bind]
    simp
  | ok a =>
    rw [ok_bind]
    constructor
    · intro h
      exact ⟨a, rfl, h⟩
    · rintro ⟨a', ha, hf⟩
      cases ha
      exact hf

/-- Joining against an empty fetched collection drops every entry. -/
theorem joinMatches_nil_props : ∀ l : List SearchResult, joinMatches [] l = []
  | [] => rfl
  | _ :: rest => joinMatches_nil_props rest

/-- The inner loop-with-break agrees with `List.find?` on the identifier
predicate. -/
theorem firstMatch_eq_find? (pid : ℤ) (props : List PropertyModel) :
    firstMatch pid props = props.find? fun p => p.id == pid := by
  induction props with
  | nil => rfl
  | cons p ps ih =>
    by_cases h : p.id = pid
    · rw [firstMatch, if_pos h, List.find?_cons_of_pos _ (by simpa using h)]
    · rw [firstMatch, if_neg h, List.find?_cons_of_neg _ (by simpa using h), ih]

/-- The join loop is the declarative join: each ranked entry resolves to the
first listing with its identifier, augmented with the entry's score, and is
dropped when no listing matches. -/
theorem joinMatches_eq_filterMap (props : List PropertyModel) :
    ∀ l : List SearchResult,
      joinMatches props l = l.filterMap fun r =>
        (props.find? fun p => p.id == r.property_id).map fun p =>
          ({ property := p, similarity_score := r.similarity } : MatchedProperty) := by
  intro l
  induction l with
  | nil => rfl
  | cons r rest ih =>
    rw [joinMatches, firstMatch_eq_find?, List.filterMap_cons]
    cases props.find? fun p => p.id == r.property_id with
    | none => simpa using ih
    | some p => simpa using ih

/-- Successful runs of the text pipeline decompose into successful stage
outcomes and determine the returned response. -/
theorem process_text_query_ok_inv (env : Env) (req : QueryRequest)
    (resp : QueryResponse) (h : process_text_query env req = .ok resp) :
    ∃ properties search_results llm_result similar,
      jsonOr env.propertiesCall [] = .ok properties ∧
      jsonOr env.searchCall [] = .ok search_results ∧
      jsonOr (env.llmCall ((joinMatches properties search_results).map fun mp =>
          ({ property_id := mp.property.id, title := mp.property.title,
             price := mp.property.price,
             details := detailsString mp.property } : ContextEntry)))
        { response := some "Sorry, I couldn't process your query at the moment." } =
          .ok llm_result ∧
      (if req.include_similar && !(joinMatches properties search_results).isEmpty then
          gatherSimilar env properties ((joinMatches properties search_results).take 2)
        else Except.ok []) = .ok similar ∧
      resp = { query := req.query,
               answer := llm_result.response.getD "No response available",
               matching_properties := joinMatches properties search_results,
               similar_properties := similar.take 5,
               processing_time := env.elapsed } := by
  unfold process_text_query at h
  rw [mapError_ok_iff] at h
  rw [bind_ok_iff] at h
  obtain ⟨properties, hp, h⟩ := h
  rw [bind_ok_iff] at h
  obtain ⟨search_results, hs, h⟩ := h
  rw [bind_ok_iff] at h
  obtain ⟨llm_result, hl, h⟩ := h
  simp only [] at h
  split at h
  case isTrue hcond =>
    rw [bind_ok_iff] at h
    obtain ⟨similar, hsim, h⟩ := h
    simp only [Except.ok.injEq] at h
    refine ⟨properties, search_results, llm_result, similar, hp, hs, hl, ?_, h.symm⟩
    rw [if_pos hcond]
    exact hsim
  case isFalse hcond =>
    rw [bind_ok_iff] at h
    obtain ⟨similar, hsim, h⟩ := h
    simp only [Except.ok.injEq] at h
    refine ⟨properties, search_results, llm_result, similar, hp, hs, hl, ?_, h.symm⟩
    rw [if_neg hcond]
    exact hsim

/-- Environment for the C1 counterexample: the Listing Store is unreachable
(the fetch raises a connection error) while every other dependency responds
normally. -/
noncomputable def envC1fail : Env :=
  { propertiesCall := .raise "connection refused",
    searchCall := .response 200 [],
    llmCall := fun _ => .response 200 { response := some "ok" },
    similarityCall := fun _ => .response 200 [],
    elapsed := 0 }

/-- C1 counterexample: when the Listing Store call raises a transport-level
exception (service unreachable) and every other dependency is healthy, the
text pipeline does NOT degrade: the exception reaches the outer handler and
the request fails with a 500 pipeline error. -/
theorem c1_counterexample :
    process_text_query envC1fail { query := "villa" } =
      .error (500, "Error processing query: " ++ "connection refused") := rfl

/-- C1 amended: when the Listing Store call completes with a non-success
status, the pipeline proceeds with an empty collection and returns a
successful response with empty `matching_properties` and a non-empty answer
(given the repository's Response Generator on a success status, or the fixed
apology otherwise); but when the Listing Store call raises a transport-level
exception, the whole request fails with a 500 pipeline error. -/
theorem c1_degraded_on_status_error_only (env : Env) (req : QueryRequest)
    (s1 : ℕ) (b1 : List PropertyModel)
    (hprops : env.propertiesCall = .response s1 b1) (hs1 : s1 ≠ 200)
    (s2 : ℕ) (b2 : List SearchResult) (hsearch : env.searchCall = .response s2 b2)
    (s3 : ℕ) (r3 : LLMResult) (hllm : env.llmCall [] = .response s3 r3)
    (hbody : s3 = 200 → r3.response = some (llm_process_query_response req.query)) :
    (∃ resp, process_text_query env req = .ok resp ∧
      resp.matching_properties = [] ∧ resp.answer ≠ "") ∧
    ∀ (env' : Env) (msg : String), env'.propertiesCall = .raise msg →
      process_text_query env' req = .error (500, "Error processing query: " ++ msg) := by
  constructor
  · have hrun : process_text_query env req = .ok
        ({ query := req.query,
           answer := (if s3 = 200 then r3
             else { response := some "Sorry, I couldn't process your query at the moment." }).response.getD
               "No response available",
           matching_properties := [],
           similar_properties := [],
           processing_time := env.elapsed } : QueryResponse) := by
      unfold process_text_query
      rw [hprops, hsearch]
      simp only [jsonOr, if_neg hs1, ok_bind, joinMatches_nil_props, List.map_nil]
      rw [hllm]
      simp only [ok_bind, List.isEmpty_nil, Bool.not_true, Bool.and_false,
        Bool.false_eq_true, if_false, List.take_nil]
      rfl
    refine ⟨_, hrun, rfl, ?_⟩
    by_cases h200 : s3 = 200
    · simp only [if_pos h200, hbody h200, Option.getD_some]
      exact llm_response_ne_empty req.query
    · simp only [if_neg h200, Option.getD_some]
      decide
  · intro env' msg h
    unfold process_text_query
    rw [h]
    rfl

/-- Environment for the C1 witness: the Listing Store answers with status
500, the Response Generator with status 503, the rest normally. -/
noncomputable def envC1degraded : Env :=
  { propertiesCall := .response 500 [],
    searchCall := .response 200 [],
    llmCall := fun _ => .response 503 { response := none },
    similarityCall := fun _ => .response 200 [],
    elapsed := 0 }

/-- Witness for the amended C1 at a concrete degraded environment. -/
theorem c1_degraded_on_status_error_only_witness :
    ∃ resp, process_text_query envC1degraded { query := "villa" } = .ok resp ∧
      resp.matching_properties = [] ∧ resp.answer ≠ "" :=
  (c1_degraded_on_status_error_only envC1degraded { query := "villa" } 500 [] rfl
    (by decide) 200 [] rfl 503 { response := none } rfl
    (fun h => absurd h (by decide))).1

/-- C3: in every successful text-query run, `matching_properties` is exactly
the rank-order join of the search results against the fetched collection:
each ranked entry contributes the first fetched listing carrying its
identifier, augmented with the entry's similarity score, and entries whose
identifier resolves to no fetched listing are silently dropped. -/
theorem c3_join_first_match_or_drop (env : Env) (req : QueryRequest)
    (resp : QueryResponse) (h : process_text_query env req = .ok resp) :
    ∃ properties search_results,
      jsonOr env.propertiesCall [] = .ok properties ∧
      jsonOr env.searchCall [] = .ok search_results ∧
      resp.matching_properties = search_results.filterMap fun r =>
        (properties.find? fun p => p.id == r.property_id).map fun p =>
          ({ property := p, similarity_score := r.similarity } : MatchedProperty) := by
  obtain ⟨properties, search_results, llm_result, similar, hp, hs, _, _, hr⟩ :=
    process_text_query_ok_inv env req resp h
  refine ⟨properties, search_results, hp, hs, ?_⟩
  rw [hr]
  exact joinMatches_eq_filterMap properties search_results

/-- A concrete listing for the orchestrator witnesses. -/
def listingA : PropertyModel :=
  { id := 1, title := "Villa A", price := 1850000, currency := "AED",
    bedrooms := 3, bathrooms := 4, area := 2500, property_type := "Villa",
    location := "Dubai Hills Estate", description := "d", amenities := [],
    url := none }

/-- Environment for the C3 witness: one listing, one matching search entry,
every call healthy. -/
noncomputable def envC3 : Env :=
  { propertiesCall := .response 200 [listingA],
    searchCall := .response 200 [{ property_id := 1, text := "t", similarity := 0.9 }],
    llmCall := fun _ => .response 200 { response := some "A" },
    similarityCall := fun _ => .response 200 [],
    elapsed := 0 }

/-- The response the pipeline returns on `envC3`. -/
noncomputable def respC3 : QueryResponse :=
  { query := "q", answer := "A",
    matching_properties := [{ property := listingA, similarity_score := 0.9 }],
    similar_properties := [], processing_time := 0 }

/-- Witness for C3 at a concrete healthy environment. -/
theorem c3_join_first_match_or_drop_witness :
    ∃ properties search_results,
      jsonOr envC3.propertiesCall [] = .ok properties ∧
      jsonOr envC3.searchCall [] = .ok search_results ∧
      respC3.matching_properties = search_results.filterMap fun r =>
        (properties.find? fun p => p.id == r.property_id).map fun p =>
          ({ property := p, similarity_score := r.similarity } : MatchedProperty) :=
  c3_join_first_match_or_drop envC3 { query := "q" } respC3 rfl

/-- C6: in every successful text-query run, `similar_properties` has at most
5 entries; it is empty when `include_similar` is false or no match was
joined; and otherwise it is the accumulated expansion of exactly the top 2
joined matches in ranked order, capped at 5. -/
theorem c6_similar_capped_top2 (env : Env) (req : QueryRequest)
    (resp : QueryResponse) (h : process_text_query env req = .ok resp) :
    resp.similar_properties.length ≤ 5 ∧
    (req.include_similar = false → resp.similar_properties = []) ∧
    (resp.matching_properties = [] → resp.similar_properties = []) ∧
    (req.include_similar = true → resp.matching_properties ≠ [] →
      ∃ properties expansion,
        jsonOr env.propertiesCall [] = .ok properties ∧
        gatherSimilar env properties (resp.matching_properties.take 2) = .ok expansion ∧
        resp.similar_properties = expansion.take 5) := by
  obtain ⟨properties, search_results, llm_result, similar, hp, hs, hl, hsim, hr⟩ :=
    process_text_query_ok_inv env req resp h
  subst hr
  refine ⟨?_, ?_, ?_, ?_⟩
  · exact List.length_take_le 5 similar
  · intro hinc
    rw [hinc] at hsim
    simp only [Bool.false_and, Bool.false_eq_true, if_false, Except.ok.injEq] at hsim
    simp [← hsim]
  · intro hmat
    simp only at hmat
    rw [hmat] at hsim
    simp only [List.isEmpty_nil, Bool.not_true, Bool.and_false, Bool.false_eq_true,
      if_false, Except.ok.injEq] at hsim
    simp [← hsim]
  · intro hinc hmat
    simp only at hmat
    rw [hinc] at hsim
    have hne : (joinMatches properties search_results).isEmpty = false := by
      simpa [List.isEmpty_iff] using hmat
    rw [hne] at hsim
    simp only [Bool.not_false, Bool.true_and, if_true] at hsim
    exact ⟨properties, similar, hp, hsim, rfl⟩

/-- Environment for the C6 witness: one listing, one matching search entry,
and a similarity expansion answering with the same listing. -/
noncomputable def envC6 : Env :=
  { propertiesCall := .response 200 [listingA],
    searchCall := .response 200 [{ property_id := 1, text := "t", similarity := 0.9 }],
    llmCall := fun _ => .response 200 { response := some "A" },
    similarityCall := fun _ => .response 200 [{ property_id := 1, text := "t", similarity := 0.8 }],
    elapsed := 0 }

/-- The response the pipeline returns on `envC6`. -/
noncomputable def respC6 : QueryResponse :=
  { query := "q", answer := "A",
    matching_properties := [{ property := listingA, similarity_score := 0.9 }],
    similar_properties := [{ property := listingA, similarity_score := 0.8 }],
    processing_time := 0 }

/-- Witness for C6 at a concrete healthy environment with an expansion. -/
theorem c6_similar_capped_top2_witness :
    respC6.similar_properties.length ≤ 5 ∧
    (({ query := "q" } : QueryRequest).include_similar = false →
      respC6.similar_properties = []) ∧
    (respC6.matching_properties = [] → respC6.similar_properties = []) ∧
    (({ query := "q" } : QueryRequest).include_similar = true →
      respC6.matching_properties ≠ [] →
      ∃ properties expansion,
        jsonOr envC6.propertiesCall [] = .ok properties ∧
        gatherSimilar envC6 properties (respC6.matching_properties.take 2) = .ok expansion ∧
        respC6.similar_properties = expansion.take 5) :=
  c6_similar_capped_top2 envC6 { query := "q" } respC6 rfl

/-- C8 counterexample: the text-query response model declares a
`similar_properties` field but the voice-query response model does not, so
the voice response does not carry the full text-query shape. -/
theorem c8_counterexample :
    "similar_properties" ∈ QueryResponse.fieldNames ∧
    "similar_properties" ∉ VoiceQueryResponse.fieldNames := by
  decide

/-- C8 amended: on a successful upload and transcription, the voice response
carries the transcript (as both `transcription` and `query`), the text
flow's `answer` and `matching_properties`, the transcription `confidence`
and the `processing_time`; its field set is the text-query response's fields
minus `similar_properties`, plus `transcription` and `confidence`. -/
theorem c8_voice_shape (venv : VoiceEnv) (ub : UploadBody)
    (tb : TranscriptionBody) (tr : QueryResponse)
    (hu : venv.uploadCall = .response 200 ub)
    (ht : venv.transcribeCall ub.file_id = .response 200 tb)
    (hq : process_text_query venv.textEnv { query := tb.transcription } = .ok tr) :
    process_voice_query venv = .ok
      ({ transcription := tb.transcription, query := tb.transcription,
         answer := tr.answer, matching_properties := tr.matching_properties,
         confidence := tb.confidence,
         processing_time := venv.elapsed } : VoiceQueryResponse) ∧
    "similar_properties" ∉ VoiceQueryResponse.fieldNames ∧
    (∀ f ∈ QueryResponse.fieldNames, f ≠ "similar_properties" →
      f ∈ VoiceQueryResponse.fieldNames) ∧
    "transcription" ∈ VoiceQueryResponse.fieldNames ∧
    "confidence" ∈ VoiceQueryResponse.fieldNames := by
  refine ⟨?_, by decide, by decide, by decide, by decide⟩
  unfold process_voice_query
  rw [hu]
  simp only [if_pos rfl, ok_bind]
  rw [ht]
  simp only [if_pos rfl, ok_bind]
  rw [hq]
  rfl

/-- Text environment for the C8 witness. -/
noncomputable def envC8text : Env :=
  { propertiesCall := .response 200 [],
    searchCall := .response 200 [],
    llmCall := fun _ => .response 200 { response := some "A" },
    similarityCall := fun _ => .response 200 [],
    elapsed := 0 }

/-- Voice environment for the C8 witness. -/
noncomputable def venvC8 : VoiceEnv :=
  { uploadCall := .response 200 { file_id := "f1" },
    transcribeCall := fun _ => .response 200 { transcription := "hello", confidence := 0.92 },
    textEnv := envC8text,
    elapsed := 0 }

/-- Witness for the amended C8 at a concrete healthy voice environment. -/
theorem c8_voice_shape_witness :
    process_voice_query venvC8 = .ok
      ({ transcription := "hello", query := "hello", answer := "A",
         matching_properties := [], confidence := 0.92,
         processing_time := 0 } : VoiceQueryResponse) :=
  (c8_voice_shape venvC8 { file_id := "f1" }
    { transcription := "hello", confidence := 0.92 }
    { query := "hello", answer := "A", matching_properties := [],
      similar_properties := [], processing_time := 0 } rfl rfl rfl).1

end PropertyQA
